import Mathlib

/-!
# BOMSO backend — verification of the subscription/request core

Shallow embedding of the BOMSO Express backend (`src/server.js`, with
`src/unnamed/part_000` as a near-identical second variant).  Every route
handler first re-reads the persisted JSON file (`loadData`) and, when it
mutates, writes the whole dataset back (`saveData`); so each handler is
modelled as a pure function from the persisted dataset to a response
outcome together with the next persisted dataset.  An early `return`
before `saveData`, or a thrown exception, leaves the persisted dataset
unchanged.

Modelling conventions:
* Instants are integers: milliseconds since the Unix epoch, as in a JS
  `Date` time value.  The stored ISO-8601 strings produced by
  `toISOString` are identified with their time values (the string round
  trips through `new Date(...)` losslessly).  The server is assumed to
  run with a UTC local time zone (Vercel/Render default), so the
  local-time `Date` accessors used by the code coincide with UTC.
* JS request bodies: a required string field is modelled as a `String`,
  where `""` stands for both an absent field and an empty string (the
  code's falsiness check `!x` rejects exactly those).  Optional string
  fields are `Option String` (`none` = absent, defaulted with `|| ''`).
* `selectedTier` arrives from unvalidated JSON, so it is modelled as a
  `TierVal`: JS `undefined`, JS `null`, or a number (numbers restricted
  to integers in this model).
* Request `status` values are the literal strings `"pending"`,
  `"approved"`, `"rejected"` used by the code.
-/

namespace Bomso

/-- Value of the `selectedTier` field of a request body / stored request.
The code never validates it beyond `selectedTier === undefined`, so it can
be any JS value; the model covers `undefined`, `null` and integer
numbers. -/
inductive TierVal where
  | undef
  | jsNull
  | num (n : Int)
deriving DecidableEq, Repr

/-- The `organization.subscription` object: either the inactive shape
`{active:false, startDate:null, endDate:null, tier:null}` or an active
window written by the approve handler.  Dates are epoch milliseconds. -/
structure Subscription where
  active : Bool
  startDate : Option Int
  endDate : Option Int
  tier : Option String
deriving DecidableEq, Repr

/-- An element of `data.organizations` (src/server.js lines 130-140). -/
structure Organization where
  orgCode : String
  orgName : String
  owner : String
  phone : String
  email : String
  udc : String
  subscription : Subscription
  continueEnabled : Bool
  createdAt : Int
deriving DecidableEq, Repr

/-- An element of `data.requests` (src/server.js lines 215-226).
`approvedAt` / `rejectedAt` do not exist on a fresh request (JS
`undefined`), hence `Option Int` defaulting to `none`.  `id` is the
generated `REQ-...` string, kept abstract. -/
structure Request where
  id : String
  orgCode : String
  orgName : String
  owner : String
  phone : String
  email : String
  selectedTier : TierVal
  selectedPrice : Int
  timestamp : Int
  status : String
  approvedAt : Option Int := none
  rejectedAt : Option Int := none
deriving DecidableEq, Repr

/-- The persisted JSON document `{ organizations: [...], requests: [...] }`. -/
structure Dataset where
  organizations : List Organization
  requests : List Request
deriving DecidableEq, Repr

/-- Response outcome of a handler, using the spec's error taxonomy (§7of
the spec) for the code's HTTP responses:
* `validationError` — 400 "Missing required fields";
* `conflictError` — 409/400 "Organization code already exists";
* `notFoundError` — 404;
* `invalidStateError` — 400 "No active subscription to extend";
* `internalError` — 500 from the handler's catch block;
* `storageError` — a backend write failure surfaced to the caller
  (present in the taxonomy; whether the code ever produces it is exactly
  what claim C6 is about);
* `ok` / `created` — 200 `{ok:true}` / 201 with the created record. -/
inductive Outcome where
  | ok
  | created
  | validationError
  | conflictError
  | notFoundError
  | invalidStateError
  | internalError
  | storageError
deriving DecidableEq, Repr

/-! ## The JS array mutation pattern

The handlers locate a record with `Array.prototype.find` /` findIndex`
(first match) and mutate that object in place.  `updateFirst p f l`
replaces the first element of `l` satisfying `p` by its `f`-image and is
the purely functional rendering of that pattern. -/

def updateFirst (p : α → Bool) (f : α → α) : List α → List α
  | [] => []
  | x :: xs => if p x then f x :: xs else x :: updateFirst p f xs

/-- The lookup `data.organizations.find(o => o.orgCode === orgCode)`. -/
def findOrgByCode (ds : Dataset) (code : String) : Option Organization :=
  ds.organizations.find? (fun o => o.orgCode == code)

/-- The lookup `data.requests.find(r => r.id === id)` (the code uses `findIndex`
followed by indexing, which yields the same first-match record). -/
def findRequestById (ds : Dataset) (id : String) : Option Request :=
  ds.requests.find? (fun r => r.id == id)

/-! ## UTC calendar arithmetic

`extendOneMonth` does `end.setMonth(end.getMonth() + 1)` on a JS `Date`.
Per ECMA-262, with a UTC zone, `setMonth(m + 1)` recomputes the time
value as `MakeDate(MakeDay(y, m + 1, d), timeWithinDay)` where `(y, m, d)`
is the civil year/month/day of the instant.  `MakeDay(y, m, d)` equals
`MakeDay(y, m, 1) + (d - 1)` (it is linear in the day argument and does
NOT clamp: an out-of-range day rolls into the following month), so

  `MakeDay(y, m + 1, d) - MakeDay(y, m, d)` = number of days in month `m`
  of year `y`.

Hence `setMonth(getMonth() + 1)` adds exactly the length in days of the
instant's current civil month.  `setMonthPlus1` below is that function;
`civilFromDays` (a standard era-based civil-calendar conversion) supplies
the civil year and month of an instant. -/

/-- Milliseconds per day (`86_400_000`). -/
def msPerDay : Int := 86400000

/-- Gregorian leap-year predicate (proleptic, as used by JS `Date`). -/
def isLeapYear (y : Int) : Bool :=
  y % 4 == 0 && (y % 100 != 0 || y % 400 == 0)

/-- Number of days in civil month `m` (1 = January … 12 = December) of
year `y`.  Totalised to return 31 on out-of-range `m`; the handlers only
apply it to genuine months. -/
def daysInMonth (y m : Int) : Int :=
  if m = 2 then (if isLeapYear y then 29 else 28)
  else if m = 4 ∨ m = 6 ∨ m = 9 ∨ m = 11 then 30
  else 31

/-- Day number (days since 1970-01-01) of the civil date `y-m-d`,
era-based conversion; `d` may lie outside the month and then rolls over,
matching ECMA-262 `MakeDay`. -/
def daysFromCivil (y m d : Int) : Int :=
  let y2 := y - (if m ≤ 2 then 1 else 0)
  let era := y2 / 400
  let yoe := y2 - era * 400
  let doy := (153 * (m + (if m > 2 then (-3) else 9)) + 2) / 5 + d - 1
  let doe := yoe * 365 + yoe / 4 - yoe / 100 + doy
  era * 146097 + doe - 719468

/-- Civil date `(y, m, d)` of a day number (inverse of `daysFromCivil`
on valid dates). -/
def civilFromDays (z : Int) : Int × Int × Int :=
  let z2 := z + 719468
  let era := z2 / 146097
  let doe := z2 - era * 146097
  let yoe := (doe - doe / 1460 + doe / 36524 - doe / 146096) / 365
  let y := yoe + era * 400
  let doy := doe - (365 * yoe + yoe / 4 - yoe / 100)
  let mp := (5 * doy + 2) / 153
  let d := doy - (153 * mp + 2) / 5 + 1
  let m := mp + (if mp < 10 then 3 else (-9))
  (y + (if m ≤ 2 then 1 else 0), m, d)

/-- Civil (UTC) year of an instant, `getFullYear`. -/
def yearOf (t : Int) : Int := (civilFromDays (t / msPerDay)).1

/-- Civil (UTC) month 1..12 of an instant (`getMonth() + 1`). -/
def monthOf (t : Int) : Int := (civilFromDays (t / msPerDay)).2.1

/-- The time value after `d.setMonth(d.getMonth() + 1)`: the instant
advances by exactly the length in days of its current civil month (see
the module comment above for the derivation from ECMA-262 `MakeDay`). -/
def setMonthPlus1 (t : Int) : Int :=
  t + daysInMonth (yearOf t) (monthOf t) * msPerDay

/-- Epoch milliseconds of the UTC midnight instant `y-m-d T00:00:00Z`. -/
def utcMs (y m d : Int) : Int := daysFromCivil y m d * msPerDay

/-! ## Handlers

Each handler is a function of its request inputs, the current instant
`now` (all `new Date()` calls inside one handler are identified with
`now`), and the persisted dataset; it returns the response outcome and
the dataset passed to the final `saveData`.  Early returns leave the
dataset unchanged. -/

/-- Handler for `POST /api/organizations` (src/server.js lines 120-148). -/
def createOrg (orgCode orgName owner phone : String)
    (email udc : Option String) (now : Int) (ds : Dataset) :
    Outcome × Dataset :=
  -- if (!orgCode || !orgName || !owner || !phone) → 400
  if orgCode = "" ∨ orgName = "" ∨ owner = "" ∨ phone = "" then
    (.validationError, ds)
  -- if (data.organizations.find(o => o.orgCode === orgCode)) → 409
  else if (findOrgByCode ds orgCode).isSome then
    (.conflictError, ds)
  else
    let newOrg : Organization := {
      orgCode := orgCode, orgName := orgName, owner := owner,
      phone := phone,
      email := email.getD "",   -- email: email || ''
      udc := udc.getD "",       -- udc: udc || ''
      subscription :=
        { active := false, startDate := none, endDate := none,
          tier := none },
      continueEnabled := false,
      createdAt := now }
    (.created, { ds with organizations := ds.organizations ++ [newOrg] })

/-- Handler for `POST /api/organizations/:orgCode/enable` (src/server.js 151-166). -/
def enableOrg (orgCode : String) (ds : Dataset) : Outcome × Dataset :=
  match findOrgByCode ds orgCode with
  | none => (.notFoundError, ds)
  | some _ =>
    let orgs2 :=
      updateFirst (fun o => o.orgCode == orgCode)
        (fun o => { o with continueEnabled := true })
        ds.organizations
    (.ok, { ds with organizations := orgs2 })

/-- Handler for `POST /api/organizations/:orgCode/extend` (src/server.js 169-189).
The guard `!org.subscription || !org.subscription.active ||
!org.subscription.endDate` maps to: subscription inactive or `endDate`
null (a stored ISO string is a non-empty string, hence truthy). -/
def extendOneMonth (orgCode : String) (ds : Dataset) : Outcome × Dataset :=
  match findOrgByCode ds orgCode with
  | none => (.notFoundError, ds)
  | some org =>
    match org.subscription.active, org.subscription.endDate with
    | true, some e =>
      let orgs2 :=
        updateFirst (fun o => o.orgCode == orgCode)
          (fun o =>
            let sub2 :=
              { o.subscription with endDate := some (setMonthPlus1 e) }
            { o with subscription := sub2 })
          ds.organizations
      (.ok, { ds with organizations := orgs2 })
    | _, _ => (.invalidStateError, ds)

/-- Handler for `POST /api/requests` (src/server.js 208-234).  Validation is
`!orgCode || !orgName || !owner || !phone || selectedTier === undefined`;
`selectedTier` itself is stored verbatim.  `newId` abstracts the
generated `'REQ-' + Date.now() + '-' + random` string. -/
def submitRequest (orgCode orgName owner phone : String)
    (email : Option String) (selectedTier : TierVal)
    (selectedPrice : Option Int) (newId : String) (now : Int)
    (ds : Dataset) : Outcome × Dataset :=
  if orgCode = "" ∨ orgName = "" ∨ owner = "" ∨ phone = "" ∨
      selectedTier = .undef then
    (.validationError, ds)
  else
    let newReq : Request := {
      id := newId, orgCode := orgCode, orgName := orgName,
      owner := owner, phone := phone,
      email := email.getD "",
      selectedTier := selectedTier,
      selectedPrice := selectedPrice.getD 0,
      timestamp := now,
      status := "pending" }
    (.created, { ds with requests := ds.requests ++ [newReq] })

/-- The computation `days = request.selectedTier === 0 ? 7 : request.selectedTier * 30`
(src/server.js line 254), evaluated over the possible stored tier
values.  JS: `null === 0` is false and `null * 30` is `0`;
`undefined * 30` is `NaN`, which makes the subsequent
`endDate.toISOString()` throw a RangeError — rendered as `none`. -/
def tierDays : TierVal → Option Int
  | .num n => some (if n = 0 then 7 else n * 30)
  | .jsNull => some 0
  | .undef => none

/-- The label `tier: request.selectedTier === 0 ? 'trial' :
request.selectedTier + 'months'` (src/server.js line 260).  JS string
concatenation: `null + 'months'` is `"nullmonths"`; the `undefined` case
is unreachable because the `NaN` date throws first. -/
def tierLabel : TierVal → String
  | .num n => if n = 0 then "trial" else toString n ++ "months"
  | .jsNull => "nullmonths"
  | .undef => "undefinedmonths"

/-- The subscription object written by the approve handler
(src/server.js 256-261), given the computed `days`.
`endDate.setDate(endDate.getDate() + days)` with integral `days` adds
exactly `days * msPerDay` (ECMA `MakeDay` is linear in the day
argument). -/
def approvedSubscription (tier : TierVal) (days now : Int) : Subscription :=
  { active := true,
    startDate := some now,
    endDate := some (now + days * msPerDay),
    tier := some (tierLabel tier) }

/-- Handler for `POST /api/requests/:id/approve` (src/server.js 237-270).  Note:
there is no check of the request's current status — any found request is
(re-)marked approved.  If the linked organization exists and the stored
tier is `undefined`, `toISOString()` on the `NaN` date throws, the catch
block answers 500, and `saveData` is never reached, so the persisted
dataset is unchanged (the in-memory request mutation is discarded by the
next handler's `loadData`). -/
def approve (id : String) (now : Int) (ds : Dataset) : Outcome × Dataset :=
  match findRequestById ds id with
  | none => (.notFoundError, ds)
  | some req =>
    let requests2 :=
      updateFirst (fun r => r.id == id)
        (fun r => { r with status := "approved", approvedAt := some now })
        ds.requests
    match findOrgByCode ds req.orgCode with
    | none => (.ok, { ds with requests := requests2 })
    | some _ =>
      match tierDays req.selectedTier with
      | none => (.internalError, ds)
      | some days =>
        let orgs2 :=
          updateFirst (fun o => o.orgCode == req.orgCode)
            (fun o =>
              { o with
                subscription :=
                  approvedSubscription req.selectedTier days now,
                continueEnabled := true })
            ds.organizations
        (.ok, { ds with requests := requests2, organizations := orgs2 })

/-- Handler for `POST /api/requests/:id/reject` (src/server.js 273-289).  As with
approve, there is no check of the current status. -/
def reject (id : String) (now : Int) (ds : Dataset) : Outcome × Dataset :=
  match findRequestById ds id with
  | none => (.notFoundError, ds)
  | some _ =>
    let requests2 :=
      updateFirst (fun r => r.id == id)
        (fun r => { r with status := "rejected", rejectedAt := some now })
        ds.requests
    (.ok, { ds with requests := requests2 })

/-- The persistence step: the handler computes its response and the new
in-memory dataset, then `await saveData()`.  In `src/server.js`,
`saveData` wraps `fs.writeFile` in try/catch and on failure only logs
("We don't throw – we'll just log and continue", lines 67-70), so the
handler still sends its computed response; only the persisted file keeps
its previous contents.  `writeOk` says whether the backend write
succeeded. -/
def runWithSave (op : Dataset → Outcome × Dataset) (writeOk : Bool)
    (ds : Dataset) : Outcome × Dataset :=
  ((op ds).1, if writeOk then (op ds).2 else ds)

/-! ## The organization invariant (spec §3)

`active = true` implies both dates are present and `endDate > startDate`. -/

/-- The subscription-window well-formedness of one organization. -/
def subWindowOk (s : Subscription) : Bool :=
  !s.active ||
    (match s.startDate, s.endDate with
     | some a, some b => a < b
     | _, _ => false)

/-- The invariant over the whole dataset. -/
def orgsInvariant (ds : Dataset) : Bool :=
  ds.organizations.all (fun o => subWindowOk o.subscription)

/-! ## Helper lemmas about `updateFirst` and the calendar -/

theorem updateFirst_length (p : α → Bool) (f : α → α) :
    ∀ l : List α, (updateFirst p f l).length = l.length := by
  intro l
  induction l with
  | nil => rfl
  | cons x xs ih =>
    unfold updateFirst
    by_cases hpx : p x <;> simp [hpx, ih]

theorem find?_updateFirst (p : α → Bool) (f : α → α)
    (hf : ∀ x, p (f x) = p x) :
    ∀ l : List α, (updateFirst p f l).find? p = (l.find? p).map f := by
  intro l
  induction l with
  | nil => rfl
  | cons x xs ih =>
    unfold updateFirst
    cases hpx : p x with
    | true => simp [List.find?_cons, hpx, hf]
    | false => simp [List.find?_cons, hpx, ih]

theorem updateFirst_getElem? (p : α → Bool) (f : α → α) :
    ∀ (l : List α) (i : Nat),
      (updateFirst p f l)[i]? = l[i]? ∨
      ∃ x, l[i]? = some x ∧ p x = true ∧
        (updateFirst p f l)[i]? = some (f x) ∧
        ∀ j, j < i → ∀ y, l[j]? = some y → p y = false := by
  intro l
  induction l with
  | nil => intro i; left; rfl
  | cons x xs ih =>
    intro i
    cases hpx : p x with
    | true =>
      cases i with
      | zero =>
        right
        refine ⟨x, by simp, hpx, ?_, ?_⟩
        · simp [updateFirst, hpx]
        · intro j hj; omega
      | succ n => left; simp [updateFirst, hpx]
    | false =>
      cases i with
      | zero => left; simp [updateFirst, hpx]
      | succ n =>
        rcases ih n with h | ⟨y, hy, hpy, hy2, hbefore⟩
        · left; simpa [updateFirst, hpx] using h
        · right
          refine ⟨y, by simpa using hy, hpy, ?_, ?_⟩
          · simpa [updateFirst, hpx] using hy2
          · intro j hj z hz
            cases j with
            | zero =>
              simp only [List.getElem?_cons_zero, Option.some.injEq] at hz
              exact hz ▸ hpx
            | succ k =>
              exact hbefore k (by omega) z (by simpa using hz)

theorem updateFirst_changed_unique (p : α → Bool) (f : α → α)
    (l : List α) (i j : Nat)
    (hi : (updateFirst p f l)[i]? ≠ l[i]?)
    (hj : (updateFirst p f l)[j]? ≠ l[j]?) : i = j := by
  rcases updateFirst_getElem? p f l i with h | ⟨x, hx, hpx, _, hbi⟩
  · exact absurd h hi
  rcases updateFirst_getElem? p f l j with h | ⟨y, hy, hpy, _, hbj⟩
  · exact absurd h hj
  rcases Nat.lt_trichotomy i j with hlt | heq | hgt
  · exact absurd hpx (by simp [hbj i hlt x hx])
  · exact heq
  · exact absurd hpy (by simp [hbi j hgt y hy])

theorem updateFirst_changed_sat (p : α → Bool) (f : α → α)
    (l : List α) (i : Nat)
    (hi : (updateFirst p f l)[i]? ≠ l[i]?) :
    ∃ x, l[i]? = some x ∧ p x = true := by
  rcases updateFirst_getElem? p f l i with h | ⟨x, hx, hpx, _, _⟩
  · exact absurd h hi
  · exact ⟨x, hx, hpx⟩

theorem all_updateFirst_of_imp (P : α → Bool) (p : α → Bool) (f : α → α)
    (h : ∀ x, P x = true → P (f x) = true) :
    ∀ l : List α, l.all P = true → (updateFirst p f l).all P = true := by
  intro l
  induction l with
  | nil => intro _; rfl
  | cons x xs ih =>
    intro hall
    simp only [List.all_cons, Bool.and_eq_true] at hall
    unfold updateFirst
    by_cases hpx : p x
    · rw [if_pos hpx]
      simp only [List.all_cons, Bool.and_eq_true]
      exact ⟨h x hall.1, hall.2⟩
    · rw [if_neg hpx]
      simp only [List.all_cons, Bool.and_eq_true]
      exact ⟨hall.1, ih hall.2⟩

theorem all_updateFirst_of_find? (P : α → Bool) (p : α → Bool) (f : α → α) :
    ∀ (l : List α) (a : α), l.find? p = some a → P (f a) = true →
      l.all P = true → (updateFirst p f l).all P = true := by
  intro l
  induction l with
  | nil => intro a ha; simp at ha
  | cons x xs ih =>
    intro a ha hPfa hall
    simp only [List.all_cons, Bool.and_eq_true] at hall
    unfold updateFirst
    cases hpx : p x with
    | true =>
      rw [List.find?_cons_of_pos _ hpx, Option.some.injEq] at ha
      subst ha
      simp [List.all_cons, hPfa, hall.2]
    | false =>
      rw [List.find?_cons_of_neg _ (by simp [hpx])] at ha
      simp [List.all_cons, hall.1, ih a ha hPfa hall.2]

theorem daysInMonth_ge (y m : Int) : 28 ≤ daysInMonth y m := by
  unfold daysInMonth
  split
  · split <;> omega
  · split <;> omega

theorem lt_setMonthPlus1 (t : Int) : t < setMonthPlus1 t := by
  have h := daysInMonth_ge (yearOf t) (monthOf t)
  unfold setMonthPlus1 msPerDay at *
  omega

theorem tierDays_eq_none {tv : TierVal} : tierDays tv = none ↔ tv = .undef := by
  cases tv <;> simp [tierDays]

/-! ## Concrete fixtures used by witnesses and counterexamples -/

/-- A registered organization with no subscription, exactly as inserted
by the create handler. -/
def orgInactive : Organization :=
  { orgCode := "ORG1", orgName := "Acme", owner := "Ada", phone := "0700",
    email := "", udc := "",
    subscription :=
      { active := false, startDate := none, endDate := none, tier := none },
    continueEnabled := false, createdAt := 0 }

/-- A pending 3-month request targeting `ORG1`. -/
def reqPending3 : Request :=
  { id := "r1", orgCode := "ORG1", orgName := "Acme", owner := "Ada",
    phone := "0700", email := "", selectedTier := .num 3,
    selectedPrice := 100, timestamp := 0, status := "pending" }

def baseDs : Dataset :=
  { organizations := [orgInactive], requests := [reqPending3] }

/-- A request already in the terminal `approved` state. -/
def reqApproved : Request :=
  { reqPending3 with
    id := "r2", status := "approved", approvedAt := some 1000 }

def dsApproved : Dataset :=
  { organizations := [orgInactive], requests := [reqApproved] }

/-- A request already in the terminal `rejected` state. -/
def reqRejected : Request :=
  { reqPending3 with
    id := "r4", status := "rejected", rejectedAt := some 1000 }

def dsRejected : Dataset :=
  { organizations := [orgInactive], requests := [reqRejected] }

/-- An organization with an active subscription ending 2024-01-31,
the leap-year example of the claim. -/
def orgActiveJan31 : Organization :=
  { orgInactive with
    orgCode := "ORG2",
    subscription :=
      { active := true, startDate := some (utcMs 2024 1 1),
        endDate := some (utcMs 2024 1 31), tier := some "trial" } }

def dsJan31 : Dataset :=
  { organizations := [orgActiveJan31], requests := [] }

/-! ## C1 — approve on a non-pending request -/

/-- C1 — counterexample.  The claim says `approve(id)` on a request
whose status is already terminal returns `InvalidStateError` and leaves
`status`/`approvedAt` unchanged.  The handler has no status check: on
`r2`, already `approved` with `approvedAt = 1000`, a second approve at
time 2000 answers `ok` and overwrites `approvedAt` with 2000. -/
theorem approve_repeat_overwrites_terminal_fields :
    reqApproved.status = "approved" ∧
    reqApproved.approvedAt = some 1000 ∧
    (approve "r2" 2000 dsApproved).1 = Outcome.ok ∧
    (approve "r2" 2000 dsApproved).1 ≠ Outcome.invalidStateError ∧
    (findRequestById (approve "r2" 2000 dsApproved).2 "r2").map
        (fun r => r.approvedAt) = some (some 2000) := by
  decide

/-- C1 (amended).  `approve` on an unknown id returns
`NotFoundError` with the dataset unchanged.  On any request present in
the ledger — whatever its current status — the handler re-runs the
transition: the outcome is never `InvalidStateError`, and whenever the
stored `selectedTier` is not JS `undefined` (or the linked organization
is absent) the call answers `ok` and sets `status = "approved"` and
`approvedAt = now`, overwriting any earlier terminal fields. -/
theorem approve_no_invalid_state_check (id : String) (now : Int)
    (ds : Dataset) :
    (findRequestById ds id = none → approve id now ds = (.notFoundError, ds)) ∧
    (∀ req, findRequestById ds id = some req →
      (approve id now ds).1 ≠ Outcome.invalidStateError ∧
      ((req.selectedTier ≠ .undef ∨ findOrgByCode ds req.orgCode = none) →
        (approve id now ds).1 = Outcome.ok ∧
        findRequestById (approve id now ds).2 id =
          some { req with status := "approved", approvedAt := some now })) := by
  constructor
  · intro h
    unfold approve
    rw [h]
  · intro req hreq
    have hmap := find?_updateFirst (fun r => r.id == id)
      (fun r => { r with status := "approved", approvedAt := some now })
      (fun x => rfl) ds.requests
    rcases horg : findOrgByCode ds req.orgCode with _ | org
    · simp only [approve, hreq, horg]
      refine ⟨by simp, fun _ => ⟨by trivial, ?_⟩⟩
      unfold findRequestById at hreq ⊢
      rw [hmap, hreq]
      rfl
    · rcases htier : tierDays req.selectedTier with _ | days
      · simp only [approve, hreq, horg, htier]
        refine ⟨by simp, fun hdisj => ?_⟩
        rcases hdisj with hne | hnone
        · exact absurd (tierDays_eq_none.mp htier) hne
        · exact absurd hnone (by simp)
      · simp only [approve, hreq, horg, htier]
        refine ⟨by simp, fun _ => ⟨by trivial, ?_⟩⟩
        unfold findRequestById at hreq ⊢
        rw [hmap, hreq]
        rfl

/-- Witness for C1 (amended) at a concrete input. -/
theorem approve_no_invalid_state_check_witness :
    (approve "r2" 123 dsApproved).1 ≠ Outcome.invalidStateError ∧
    findRequestById (approve "r2" 123 dsApproved).2 "r2" =
      some { reqApproved with status := "approved", approvedAt := some 123 } := by
  have h := (approve_no_invalid_state_check "r2" 123 dsApproved).2
    reqApproved (by decide)
  exact ⟨h.1, (h.2 (by decide)).2⟩

/-! ## C2 — extendOneMonth and month-end behaviour -/

/-- C2 — counterexample.  The claim says the new `endDate` is
clamped to the target month's last valid day, so 2024-01-31 would map to
2024-02-29.  JS `setMonth` does not clamp: the overflowing day rolls
into the following month, giving 2024-03-02. -/
theorem extend_jan31_no_clamp :
    (extendOneMonth "ORG2" dsJan31).1 = Outcome.ok ∧
    (findOrgByCode (extendOneMonth "ORG2" dsJan31).2 "ORG2").map
        (fun o => o.subscription.endDate) = some (some (utcMs 2024 3 2)) ∧
    utcMs 2024 3 2 ≠ utcMs 2024 2 29 := by
  decide

/-- C2 (amended).  On an organization with an active subscription
and an `endDate`, `extendOneMonth` advances `endDate` by exactly the
number of days in `endDate`'s current civil month (JS `setMonth`
semantics: same day-of-month, with overflow rolling into the following
month — no clamping).  In particular 2024-01-31 maps to 2024-03-02
(leap year) and 2023-01-31 maps to 2023-03-03. -/
theorem extend_adds_month_length (orgCode : String) (ds : Dataset) :
    (∀ org e, findOrgByCode ds orgCode = some org →
      org.subscription.active = true →
      org.subscription.endDate = some e →
      (extendOneMonth orgCode ds).1 = Outcome.ok ∧
      (findOrgByCode (extendOneMonth orgCode ds).2 orgCode).map
          (fun o => o.subscription.endDate) =
        some (some (e + daysInMonth (yearOf e) (monthOf e) * msPerDay))) ∧
    setMonthPlus1 (utcMs 2024 1 31) = utcMs 2024 3 2 ∧
    setMonthPlus1 (utcMs 2023 1 31) = utcMs 2023 3 3 := by
  refine ⟨?_, by decide, by decide⟩
  intro org e horg hact hend
  have hmap := find?_updateFirst (fun o => o.orgCode == orgCode)
    (fun o => { o with subscription :=
      { o.subscription with endDate := some (setMonthPlus1 e) } })
    (fun x => rfl) ds.organizations
  simp only [extendOneMonth, horg, hact, hend]
  refine ⟨by trivial, ?_⟩
  unfold findOrgByCode at horg ⊢
  rw [hmap, horg]
  simp [setMonthPlus1]

/-- Witness for C2 (amended) at the claim's leap-year date. -/
theorem extend_adds_month_length_witness :
    (extendOneMonth "ORG2" dsJan31).1 = Outcome.ok ∧
    (findOrgByCode (extendOneMonth "ORG2" dsJan31).2 "ORG2").map
        (fun o => o.subscription.endDate) =
      some (some (utcMs 2024 1 31 +
        daysInMonth (yearOf (utcMs 2024 1 31)) (monthOf (utcMs 2024 1 31)) *
          msPerDay)) := by
  exact (extend_adds_month_length "ORG2" dsJan31).1 orgActiveJan31
    (utcMs 2024 1 31) (by decide) (by decide) (by decide)

/-! ## C7 — reject -/

/-- C7 — counterexample.  The claim says `reject(id)` on a request
whose status is not pending returns `InvalidStateError`.  The handler
has no status check: on `r4`, already `rejected` with
`rejectedAt = 1000`, a second reject at time 2000 answers `ok` and
overwrites `rejectedAt` with 2000. -/
theorem reject_repeat_overwrites_terminal_fields :
    reqRejected.status = "rejected" ∧
    reqRejected.rejectedAt = some 1000 ∧
    (reject "r4" 2000 dsRejected).1 = Outcome.ok ∧
    (reject "r4" 2000 dsRejected).1 ≠ Outcome.invalidStateError ∧
    (findRequestById (reject "r4" 2000 dsRejected).2 "r4").map
        (fun r => r.rejectedAt) = some (some 2000) := by
  decide

/-- C7 (amended).  `reject` on an unknown id returns `NotFoundError`
and leaves the dataset (in particular the request ledger) unmodified.
On any request present in the ledger — pending or not, there is no
status check and no `InvalidStateError` — it answers `ok` and sets
`status = "rejected"`, `rejectedAt = now`; organizations are
untouched. -/
theorem reject_no_invalid_state_check (id : String) (now : Int)
    (ds : Dataset) :
    (findRequestById ds id = none → reject id now ds = (.notFoundError, ds)) ∧
    (∀ req, findRequestById ds id = some req →
      (reject id now ds).1 = Outcome.ok ∧
      (reject id now ds).1 ≠ Outcome.invalidStateError ∧
      (reject id now ds).2.organizations = ds.organizations ∧
      findRequestById (reject id now ds).2 id =
        some { req with status := "rejected", rejectedAt := some now }) := by
  constructor
  · intro h
    unfold reject
    rw [h]
  · intro req hreq
    have hmap := find?_updateFirst (fun r => r.id == id)
      (fun r => { r with status := "rejected", rejectedAt := some now })
      (fun x => rfl) ds.requests
    simp only [reject, hreq]
    refine ⟨by trivial, by simp, by trivial, ?_⟩
    unfold findRequestById at hreq ⊢
    rw [hmap, hreq]
    rfl

/-- Witness for C7 (amended) at a concrete input. -/
theorem reject_no_invalid_state_check_witness :
    (reject "r1" 321 baseDs).1 = Outcome.ok ∧
    findRequestById (reject "r1" 321 baseDs).2 "r1" =
      some { reqPending3 with status := "rejected", rejectedAt := some 321 } := by
  have h := (reject_no_invalid_state_check "r1" 321 baseDs).2
    reqPending3 (by decide)
  exact ⟨h.1, h.2.2.2⟩

/-! ## C3 — the subscription written on approval -/

/-- C3.  Approving a request with a numeric `selectedTier = n` whose
`orgCode` matches an existing organization sets that organization's
subscription to a fresh window — `active = true`, `startDate = now`,
`endDate = now` plus 7 days when `n = 0` and `n * 30` days otherwise,
tier label `"trial"` when `n = 0` and `"<n>months"` otherwise — and sets
`continueEnabled = true`.  The new subscription does not depend on the
organization's previous subscription: any earlier window is overwritten,
not extended. -/
theorem approve_overwrites_subscription (id : String) (now : Int)
    (ds : Dataset) (req : Request) (n : Int) (org : Organization)
    (hreq : findRequestById ds id = some req)
    (htier : req.selectedTier = .num n)
    (horg : findOrgByCode ds req.orgCode = some org) :
    (approve id now ds).1 = Outcome.ok ∧
    findOrgByCode (approve id now ds).2 req.orgCode =
      some { org with
        subscription :=
          { active := true, startDate := some now,
            endDate := some (now + (if n = 0 then 7 else n * 30) * msPerDay),
            tier := some (if n = 0 then "trial" else toString n ++ "months") },
        continueEnabled := true } := by
  have hdays : tierDays req.selectedTier =
      some (if n = 0 then 7 else n * 30) := by
    rw [htier]; rfl
  have hmap := find?_updateFirst (fun o => o.orgCode == req.orgCode)
    (fun o => { o with
      subscription :=
        approvedSubscription req.selectedTier (if n = 0 then 7 else n * 30) now,
      continueEnabled := true })
    (fun x => rfl) ds.organizations
  simp only [approve, hreq, horg, hdays]
  refine ⟨by trivial, ?_⟩
  unfold findOrgByCode at horg ⊢
  rw [hmap, horg]
  simp [approvedSubscription, tierLabel, htier]

/-- Witness for C3 at the concrete 3-month request of `baseDs`. -/
theorem approve_overwrites_subscription_witness :
    (approve "r1" 500 baseDs).1 = Outcome.ok ∧
    findOrgByCode (approve "r1" 500 baseDs).2 reqPending3.orgCode =
      some { orgInactive with
        subscription :=
          { active := true, startDate := some 500,
            endDate := some (500 + (if (3 : Int) = 0 then 7 else 3 * 30) * msPerDay),
            tier := some (if (3 : Int) = 0 then "trial"
              else toString (3 : Int) ++ "months") },
        continueEnabled := true } := by
  exact approve_overwrites_subscription "r1" 500 baseDs reqPending3 3
    orgInactive (by decide) (by decide) (by decide)

/-! ## C4 — approval of an orphaned request -/

/-- C4.  Approving a request whose `orgCode` matches no organization
still marks the request `approved` with `approvedAt = now` (it reaches a
terminal state), while the organizations collection is unchanged: the
subscription mutation step is skipped entirely. -/
theorem approve_orphan_request_terminal (id : String) (now : Int)
    (ds : Dataset) (req : Request)
    (hreq : findRequestById ds id = some req)
    (horg : findOrgByCode ds req.orgCode = none) :
    (approve id now ds).1 = Outcome.ok ∧
    (approve id now ds).2.organizations = ds.organizations ∧
    findRequestById (approve id now ds).2 id =
      some { req with status := "approved", approvedAt := some now } := by
  have hmap := find?_updateFirst (fun r => r.id == id)
    (fun r => { r with status := "approved", approvedAt := some now })
    (fun x => rfl) ds.requests
  simp only [approve, hreq, horg]
  refine ⟨by trivial, by trivial, ?_⟩
  unfold findRequestById at hreq ⊢
  rw [hmap, hreq]
  rfl

/-- A pending request naming an organization code that is not
registered. -/
def reqOrphan : Request :=
  { reqPending3 with id := "r5", orgCode := "GHOST" }

def dsOrphan : Dataset :=
  { organizations := [orgInactive], requests := [reqOrphan] }

/-- Witness for C4 at a concrete orphaned request. -/
theorem approve_orphan_request_terminal_witness :
    (approve "r5" 777 dsOrphan).1 = Outcome.ok ∧
    (approve "r5" 777 dsOrphan).2.organizations = dsOrphan.organizations ∧
    findRequestById (approve "r5" 777 dsOrphan).2 "r5" =
      some { reqOrphan with status := "approved", approvedAt := some 777 } := by
  exact approve_orphan_request_terminal "r5" 777 dsOrphan reqOrphan
    (by decide) (by decide)

/-! ## C5 — the organization invariant -/

/-- A pending request with a negative `selectedTier`, which the submit
handler accepts (see C9). -/
def reqNegTier : Request :=
  { reqPending3 with id := "r3", selectedTier := .num (-1) }

def dsNegTier : Dataset :=
  { organizations := [orgInactive], requests := [reqNegTier] }

/-- C5 — counterexample.  The claim says every operation preserves
the invariant "`subscription.active = true` implies both dates present
and `endDate > startDate`".  Approving the stored request with
`selectedTier = -1` (which submit accepts — there is no tier validation)
computes `days = -1 * 30 = -30` and writes an active subscription with
`endDate = now - 30 days < startDate = now`, breaking the invariant on a
dataset that satisfied it before the call. -/
theorem approve_negative_tier_breaks_invariant :
    orgsInvariant dsNegTier = true ∧
    (approve "r3" 5000 dsNegTier).1 = Outcome.ok ∧
    orgsInvariant (approve "r3" 5000 dsNegTier).2 = false := by
  decide

/-- C5 (amended).  create, enable, extendOneMonth, submit and reject
all preserve the organization invariant, and approve preserves it
provided the approved request's `selectedTier` is JS `undefined` (the
call then fails before persisting anything) or a number `n ≥ 0`.
Approval of a request whose stored tier is negative (or `null`) can
break the invariant — see the counterexample. -/
theorem operations_preserve_invariant
    (a b c d : String) (em ud : Option String) (tv : TierVal)
    (pr : Option Int) (nid code id : String) (now : Int) (ds : Dataset)
    (hds : orgsInvariant ds = true) :
    orgsInvariant (createOrg a b c d em ud now ds).2 = true ∧
    orgsInvariant (enableOrg code ds).2 = true ∧
    orgsInvariant (extendOneMonth code ds).2 = true ∧
    orgsInvariant (submitRequest a b c d em tv pr nid now ds).2 = true ∧
    orgsInvariant (reject id now ds).2 = true ∧
    (∀ req, findRequestById ds id = some req →
      (req.selectedTier = .undef ∨ ∃ n, req.selectedTier = .num n ∧ 0 ≤ n) →
      orgsInvariant (approve id now ds).2 = true) := by
  refine ⟨?_, ?_, ?_, ?_, ?_, ?_⟩
  · -- createOrg: the new organization starts with an inactive subscription
    unfold createOrg
    split
    · exact hds
    · split
      · exact hds
      · unfold orgsInvariant at hds ⊢
        simp only [List.all_append, Bool.and_eq_true]
        exact ⟨hds, by simp [subWindowOk]⟩
  · -- enableOrg: continueEnabled does not touch the subscription
    rcases hfind : findOrgByCode ds code with _ | o
    · unfold enableOrg; rw [hfind]; exact hds
    · unfold enableOrg; rw [hfind]
      unfold orgsInvariant at hds ⊢
      simp only
      exact all_updateFirst_of_imp (fun o => subWindowOk o.subscription)
        (fun o => o.orgCode == code)
        (fun o => { o with continueEnabled := true })
        (fun x hx => hx) ds.organizations hds
  · -- extendOneMonth: the new endDate is strictly later than the old one
    rcases hfind : findOrgByCode ds code with _ | o
    · unfold extendOneMonth; rw [hfind]; exact hds
    · cases hact : o.subscription.active with
      | false =>
        unfold extendOneMonth; rw [hfind]
        simp only [hact]
        exact hds
      | true =>
        rcases hend : o.subscription.endDate with _ | e
        · unfold extendOneMonth; rw [hfind]
          simp only [hact, hend]
          exact hds
        · unfold extendOneMonth; rw [hfind]
          simp only [hact, hend]
          unfold orgsInvariant at hds ⊢
          simp only
          unfold findOrgByCode at hfind
          have ho : subWindowOk o.subscription = true :=
            (List.all_eq_true.mp hds) o (List.mem_of_find?_eq_some hfind)
          refine all_updateFirst_of_find? _ _ _ ds.organizations o hfind ?_ hds
          unfold subWindowOk at ho ⊢
          rcases hstart : o.subscription.startDate with _ | s
          · simp [hact, hstart, hend] at ho
          · simp only [hact, hstart, hend, Bool.not_true, Bool.false_or,
              decide_eq_true_eq] at ho
            simp only [hact, hstart, Bool.not_true, Bool.false_or,
              decide_eq_true_eq]
            exact lt_trans ho (lt_setMonthPlus1 e)
  · -- submitRequest: organizations are untouched
    unfold submitRequest
    split
    · exact hds
    · exact hds
  · -- reject: organizations are untouched
    rcases hfind : findRequestById ds id with _ | r
    · unfold reject; rw [hfind]; exact hds
    · unfold reject; rw [hfind]; exact hds
  · -- approve with a non-negative numeric tier (or undefined)
    intro req hreq hcond
    rcases horg : findOrgByCode ds req.orgCode with _ | org
    · simp only [approve, hreq, horg]
      exact hds
    · rcases htier : tierDays req.selectedTier with _ | days
      · simp only [approve, hreq, horg, htier]
        exact hds
      · have hdaysPos : 0 < days := by
          rcases hcond with hu | ⟨n, hn, hn0⟩
          · rw [hu] at htier; simp [tierDays] at htier
          · rw [hn] at htier
            simp only [tierDays, Option.some.injEq] at htier
            by_cases h0 : n = 0
            · simp [h0] at htier; omega
            · simp [h0] at htier; omega
        simp only [approve, hreq, horg, htier]
        unfold orgsInvariant at hds ⊢
        simp only
        refine all_updateFirst_of_imp _ _ _ (fun x hx => ?_) ds.organizations hds
        unfold subWindowOk approvedSubscription
        simp only [Bool.not_true, Bool.false_or, decide_eq_true_eq]
        unfold msPerDay
        omega

/-- Witness for C5 (amended): approving the valid 3-month request of
`baseDs` keeps the invariant. -/
theorem operations_preserve_invariant_witness :
    orgsInvariant (approve "r1" 999 baseDs).2 = true := by
  exact (operations_preserve_invariant "X" "N" "O" "P" none none
    (.num 3) none "rq" "ORG1" "r1" 999 baseDs (by decide)).2.2.2.2.2
    reqPending3 (by decide) (Or.inr ⟨3, by decide, by decide⟩)

/-! ## C6 — behaviour on persistence write failure -/

/-- C6 — counterexample.  The claim says a failed `saveData` write is
reported to the caller as a StorageError-class result.  In
`src/server.js`, `saveData` catches the write error and only logs it
("We don't throw – we'll just log and continue"), so a valid create whose
write fails still answers 201 Created — and the persisted dataset
silently keeps its previous contents: the new organization is lost. -/
theorem write_failure_still_reports_created :
    (runWithSave (createOrg "ORG9" "New" "Own" "Ph" none none 0) false
        baseDs).1 = Outcome.created ∧
    (runWithSave (createOrg "ORG9" "New" "Own" "Ph" none none 0) false
        baseDs).1 ≠ Outcome.storageError ∧
    (runWithSave (createOrg "ORG9" "New" "Own" "Ph" none none 0) false
        baseDs).2 = baseDs := by
  decide

/-- C6 (amended).  For every operation, a persistence write failure
is swallowed: the operation's response is the same as on a successful
write (so never a StorageError-class result); only the persisted dataset
is left at its previous value.  (`src/server.js` `saveData` catches and
logs write errors; the variant in `src/unnamed/part_000` lets the
rejection escape the handler, which produces no error response to the
caller either.) -/
theorem write_failure_never_storage_error
    (a b c d : String) (em ud : Option String) (tv : TierVal)
    (pr : Option Int) (nid code id : String) (now : Int) (ds : Dataset)
    (w : Bool) :
    ((runWithSave (createOrg a b c d em ud now) w ds).1 =
        (createOrg a b c d em ud now ds).1 ∧
      (runWithSave (createOrg a b c d em ud now) w ds).1 ≠
        Outcome.storageError) ∧
    ((runWithSave (enableOrg code) w ds).1 = (enableOrg code ds).1 ∧
      (runWithSave (enableOrg code) w ds).1 ≠ Outcome.storageError) ∧
    ((runWithSave (extendOneMonth code) w ds).1 =
        (extendOneMonth code ds).1 ∧
      (runWithSave (extendOneMonth code) w ds).1 ≠ Outcome.storageError) ∧
    ((runWithSave (submitRequest a b c d em tv pr nid now) w ds).1 =
        (submitRequest a b c d em tv pr nid now ds).1 ∧
      (runWithSave (submitRequest a b c d em tv pr nid now) w ds).1 ≠
        Outcome.storageError) ∧
    ((runWithSave (approve id now) w ds).1 = (approve id now ds).1 ∧
      (runWithSave (approve id now) w ds).1 ≠ Outcome.storageError) ∧
    ((runWithSave (reject id now) w ds).1 = (reject id now ds).1 ∧
      (runWithSave (reject id now) w ds).1 ≠ Outcome.storageError) := by
  refine ⟨⟨rfl, ?_⟩, ⟨rfl, ?_⟩, ⟨rfl, ?_⟩, ⟨rfl, ?_⟩, ⟨rfl, ?_⟩, ⟨rfl, ?_⟩⟩
  · show (createOrg a b c d em ud now ds).1 ≠ Outcome.storageError
    unfold createOrg
    split
    · simp
    · split <;> simp
  · show (enableOrg code ds).1 ≠ Outcome.storageError
    unfold enableOrg
    split <;> simp
  · show (extendOneMonth code ds).1 ≠ Outcome.storageError
    unfold extendOneMonth
    split
    · simp
    · split <;> simp
  · show (submitRequest a b c d em tv pr nid now ds).1 ≠
      Outcome.storageError
    unfold submitRequest
    split <;> simp
  · show (approve id now ds).1 ≠ Outcome.storageError
    unfold approve
    split
    · simp
    · split
      · simp
      · split <;> simp
  · show (reject id now ds).1 ≠ Outcome.storageError
    unfold reject
    split <;> simp

/-! ## C8 — create: validation, duplicate codes, uniqueness -/

theorem find?_append_left_none {p : α → Bool} (l2 : List α) :
    ∀ l1 : List α, l1.find? p = none → (l1 ++ l2).find? p = l2.find? p := by
  intro l1
  induction l1 with
  | nil => intro _; rfl
  | cons x xs ih =>
    intro h
    rw [List.find?_cons] at h
    cases hpx : p x with
    | true => rw [hpx] at h; simp at h
    | false =>
      rw [hpx] at h
      rw [List.cons_append, List.find?_cons, hpx]
      exact ih h

/-- C8.  `create` fails with `ValidationError` when any of orgCode,
orgName, owner, phone is missing/empty.  When a create succeeds, the new
organization is appended with an inactive subscription and
`continueEnabled = false`, the registry then holds exactly one record
with that code, and a second create with the same `orgCode`
(case-sensitive string equality) and well-formed remaining fields fails
with `ConflictError`, leaving the registry unchanged. -/
theorem createOrg_contract
    (orgCode orgName owner phone orgName2 owner2 phone2 : String)
    (em ud em2 ud2 : Option String) (now now2 : Int) (ds ds1 : Dataset) :
    ((orgCode = "" ∨ orgName = "" ∨ owner = "" ∨ phone = "") →
      createOrg orgCode orgName owner phone em ud now ds =
        (Outcome.validationError, ds)) ∧
    (createOrg orgCode orgName owner phone em ud now ds =
        (Outcome.created, ds1) →
      ds1.organizations.countP (fun o => o.orgCode == orgCode) = 1 ∧
      (∃ newOrg, ds1.organizations = ds.organizations ++ [newOrg] ∧
        newOrg.orgCode = orgCode ∧
        newOrg.subscription =
          { active := false, startDate := none, endDate := none,
            tier := none } ∧
        newOrg.continueEnabled = false) ∧
      (orgName2 ≠ "" → owner2 ≠ "" → phone2 ≠ "" →
        createOrg orgCode orgName2 owner2 phone2 em2 ud2 now2 ds1 =
          (Outcome.conflictError, ds1))) := by
  constructor
  · intro h
    unfold createOrg
    rw [if_pos h]
  · intro h
    unfold createOrg at h
    by_cases hval : orgCode = "" ∨ orgName = "" ∨ owner = "" ∨ phone = ""
    · rw [if_pos hval] at h; simp at h
    · rw [if_neg hval] at h
      by_cases hdup : (findOrgByCode ds orgCode).isSome
      · rw [if_pos hdup] at h; simp at h
      · rw [if_neg hdup] at h
        have hfind : findOrgByCode ds orgCode = none := by
          rcases hfd : findOrgByCode ds orgCode with _ | x
          · rfl
          · rw [hfd] at hdup; simp at hdup
        injection h with h1 h2
        subst h2
        push_neg at hval
        refine ⟨?_, ⟨_, rfl, rfl, rfl, rfl⟩, ?_⟩
        · unfold findOrgByCode at hfind
          rw [List.countP_append]
          have hzero :
              ds.organizations.countP (fun o => o.orgCode == orgCode) = 0 :=
            List.countP_eq_zero.mpr (List.find?_eq_none.mp hfind)
          simp [hzero]
        · intro hn2 ho2 hp2
          unfold createOrg
          rw [if_neg (by push_neg; exact ⟨hval.1, hn2, ho2, hp2⟩)]
          rw [if_pos ?_]
          unfold findOrgByCode at hfind ⊢
          simp only
          rw [find?_append_left_none _ ds.organizations hfind]
          simp

/-- Concrete fixture for the C8 witness: the registry that the first
create call produces from an empty dataset. -/
def dsA : Dataset :=
  { organizations :=
      [{ orgCode := "A", orgName := "N", owner := "O", phone := "P",
         email := "", udc := "",
         subscription :=
           { active := false, startDate := none, endDate := none,
             tier := none },
         continueEnabled := false, createdAt := 0 }],
    requests := [] }

/-- Witness for C8 at concrete inputs. -/
theorem createOrg_contract_witness :
    createOrg "A" "N2" "O2" "P2" none none 1 dsA =
      (Outcome.conflictError, dsA) ∧
    dsA.organizations.countP (fun o => o.orgCode == "A") = 1 := by
  have h := (createOrg_contract "A" "N" "O" "P" "N2" "O2" "P2"
    none none none none 0 1 { organizations := [], requests := [] } dsA).2
    (by decide)
  exact ⟨h.2.2 (by decide) (by decide) (by decide), h.1⟩

/-! ## C9 — submit validates selectedTier only for presence -/

/-- C9.  When the required string fields are non-empty and
`selectedTier` is any modelled value other than JS `undefined` —
including `null` and any (negative) integer — `submit` appends a new
request with `status = "pending"` and the `selectedTier` value stored
verbatim; no integer or non-negativity check is performed. -/
theorem submit_stores_tier_verbatim
    (orgCode orgName owner phone : String) (em : Option String)
    (tv : TierVal) (pr : Option Int) (nid : String) (now : Int)
    (ds : Dataset)
    (h1 : orgCode ≠ "") (h2 : orgName ≠ "") (h3 : owner ≠ "")
    (h4 : phone ≠ "") (h5 : tv ≠ .undef) :
    ∃ r : Request,
      submitRequest orgCode orgName owner phone em tv pr nid now ds =
        (Outcome.created, { ds with requests := ds.requests ++ [r] }) ∧
      r.selectedTier = tv ∧ r.status = "pending" ∧ r.id = nid ∧
      r.orgCode = orgCode ∧ r.timestamp = now := by
  unfold submitRequest
  rw [if_neg (by push_neg; exact ⟨h1, h2, h3, h4, h5⟩)]
  exact ⟨_, rfl, rfl, rfl, rfl, rfl, rfl⟩

/-- Witness for C9 with a negative tier, which submit accepts. -/
theorem submit_stores_tier_verbatim_witness :
    ∃ r : Request,
      submitRequest "OC" "ON" "OW" "PH" none (.num (-5)) none "rid" 42
          baseDs =
        (Outcome.created, { baseDs with requests := baseDs.requests ++ [r] }) ∧
      r.selectedTier = .num (-5) ∧ r.status = "pending" ∧ r.id = "rid" ∧
      r.orgCode = "OC" ∧ r.timestamp = 42 := by
  exact submit_stores_tier_verbatim "OC" "ON" "OW" "PH" none (.num (-5))
    none "rid" 42 baseDs (by decide) (by decide) (by decide) (by decide)
    (by decide)

/-! ## C10 — the frame of approve -/

/-- C10.  `approve(id)` mutates at most two records: positionally,
every slot of the requests list is either unchanged or held the request
with that id, every slot of the organizations list is either unchanged
or held an organization whose `orgCode` equals that of the found
request, at most one slot of each list changes, and both list lengths
are preserved. -/
theorem approve_frame (id : String) (now : Int) (ds : Dataset) :
    (approve id now ds).2.requests.length = ds.requests.length ∧
    (approve id now ds).2.organizations.length = ds.organizations.length ∧
    (∀ i : Nat, (approve id now ds).2.requests[i]? = ds.requests[i]? ∨
      ∃ r, ds.requests[i]? = some r ∧ r.id = id) ∧
    (∀ i : Nat,
      (approve id now ds).2.organizations[i]? = ds.organizations[i]? ∨
      ∃ o req, ds.organizations[i]? = some o ∧
        findRequestById ds id = some req ∧ o.orgCode = req.orgCode) ∧
    (∀ i j : Nat, (approve id now ds).2.requests[i]? ≠ ds.requests[i]? →
      (approve id now ds).2.requests[j]? ≠ ds.requests[j]? → i = j) ∧
    (∀ i j : Nat,
      (approve id now ds).2.organizations[i]? ≠ ds.organizations[i]? →
      (approve id now ds).2.organizations[j]? ≠ ds.organizations[j]? →
      i = j) := by
  rcases hreq : findRequestById ds id with _ | req
  · simp only [approve, hreq]
    refine ⟨by trivial, by trivial, fun i => Or.inl (by trivial),
      fun i => Or.inl (by trivial),
      fun i j hi _ => absurd (by trivial) hi,
      fun i j hi _ => absurd (by trivial) hi⟩
  · rcases horg : findOrgByCode ds req.orgCode with _ | org
    · simp only [approve, hreq, horg]
      refine ⟨updateFirst_length _ _ _, by trivial, ?_,
        fun i => Or.inl (by trivial),
        fun i j hi hj => updateFirst_changed_unique _ _ _ i j hi hj,
        fun i j hi _ => absurd (by trivial) hi⟩
      intro i
      rcases updateFirst_getElem? (fun r => r.id == id)
        (fun r => { r with status := "approved", approvedAt := some now })
        ds.requests i with h | ⟨x, hx, hpx, _, _⟩
      · exact Or.inl h
      · exact Or.inr ⟨x, hx, eq_of_beq hpx⟩
    · rcases htier : tierDays req.selectedTier with _ | days
      · simp only [approve, hreq, horg, htier]
        refine ⟨by trivial, by trivial, fun i => Or.inl (by trivial),
          fun i => Or.inl (by trivial),
          fun i j hi _ => absurd (by trivial) hi,
          fun i j hi _ => absurd (by trivial) hi⟩
      · simp only [approve, hreq, horg, htier]
        refine ⟨updateFirst_length _ _ _, updateFirst_length _ _ _,
          ?_, ?_,
          fun i j hi hj => updateFirst_changed_unique _ _ _ i j hi hj,
          fun i j hi hj => updateFirst_changed_unique _ _ _ i j hi hj⟩
        · intro i
          rcases updateFirst_getElem? (fun r => r.id == id)
            (fun r => { r with status := "approved", approvedAt := some now })
            ds.requests i with h | ⟨x, hx, hpx, _, _⟩
          · exact Or.inl h
          · exact Or.inr ⟨x, hx, eq_of_beq hpx⟩
        · intro i
          rcases updateFirst_getElem? (fun o => o.orgCode == req.orgCode)
            (fun o => { o with
              subscription :=
                approvedSubscription req.selectedTier days now,
              continueEnabled := true })
            ds.organizations i with h | ⟨x, hx, hpx, _, _⟩
          · exact Or.inl h
          · exact Or.inr ⟨x, req, hx, by trivial, eq_of_beq hpx⟩

/-- Witness for C10: at `baseDs` the first (and only) request slot is
the one that changes, so the uniqueness implication applies at 0, 0. -/
theorem approve_frame_witness :
    (approve "r1" 1000 baseDs).2.requests.length =
      baseDs.requests.length ∧ (0 : Nat) = 0 := by
  have h := approve_frame "r1" 1000 baseDs
  exact ⟨h.1, h.2.2.2.2.1 0 0 (by decide) (by decide)⟩

end Bomso
